import Mathlib

set_option maxHeartbeats 1000000

/-!
Verification of the billing-integration glue layer: a checkout-session
creation endpoint, a webhook event verifier, and a reconciliation engine
that mirrors provider subscription and order state into local tables.

The embedding below follows the source files:
  - the subscription-id-keyed webhook variant (handlers upsertSubscription,
    handleSubscriptionDeleted, handleInvoicePaymentSucceeded,
    handleInvoicePaymentFailed, handleCheckoutCompleted, handleEvent);
  - the HTTP serve wrapper of the webhook endpoint;
  - the checkout endpoint (stripe-checkout), with every external effect
    (identity lookup, remote customer create and delete, store writes,
    session creation) passed in as an explicit outcome;
  - the customer-id-keyed webhook variant (syncCustomerFromStripe).

Timestamps: the code converts provider epoch seconds to ISO strings via
new Date(x * 1000).toISOString(); ISO timestamps are modelled as the
millisecond value, so the conversion is multiplication by 1000 guarded by
JS truthiness (an epoch value of 0 is falsy and maps to null).  The wall
clock new Date().toISOString() is a parameter now : Nat.
-/

/-- The local subscription status enum, from the SQL type
subscription_status in the migration. -/
inductive SubscriptionStatus where
  | incomplete
  | incomplete_expired
  | trialing
  | active
  | past_due
  | canceled
  | unpaid
deriving DecidableEq, Repr

/-- The members of the local subscription status enum, as a list. -/
def SubscriptionStatus.all : List SubscriptionStatus :=
  [.incomplete, .incomplete_expired, .trialing, .active, .past_due, .canceled, .unpaid]

/-- The local order status enum, from the SQL type order_status. -/
inductive OrderStatus where
  | pending
  | paid
  | failed
  | refunded
deriving DecidableEq, Repr

/-- The admission of a provider status string into the local enum.  The
code passes the provider string through unchanged (status:
subscription.status as any); the enumerated SQL column type is what
accepts or rejects it, so this parse is exactly the SQL enum membership
test performed by the store on write. -/
def parseSubscriptionStatus : String → Option SubscriptionStatus
  | "incomplete" => some .incomplete
  | "incomplete_expired" => some .incomplete_expired
  | "trialing" => some .trialing
  | "active" => some .active
  | "past_due" => some .past_due
  | "canceled" => some .canceled
  | "unpaid" => some .unpaid
  | _ => none

/-- JS truthiness of a nullable string: null and the empty string are
falsy. -/
def falsyOpt : Option String → Bool
  | none => true
  | some s => s == ""

/-- Models x ? new Date(x * 1000).toISOString() : null on a nullable
epoch-second field: 0 is falsy in JS, so it also maps to null. -/
def epochToIso : Option Nat → Option Nat
  | none => none
  | some x => if x = 0 then none else some (x * 1000)

/-- A row of stripe_customers: the CustomerMapping entity. -/
structure CustomerRow where
  id : Nat
  user_id : String
  customer_id : String
  deleted_at : Option Nat
deriving DecidableEq, Repr

/-- A row of stripe_subscriptions in the subscription-id-keyed variant;
the columns the handlers write.  The status column carries the SQL enum
type, so a stored status is a member of the enum by construction. -/
structure SubscriptionRow where
  customer_id : Nat
  subscription_id : String
  price_id : Option String
  status : SubscriptionStatus
  current_period_start : Option Nat
  current_period_end : Option Nat
  cancel_at_period_end : Bool
  canceled_at : Option Nat
  trial_start : Option Nat
  trial_end : Option Nat
  metadata : List (String × String)
  updated_at : Nat
deriving DecidableEq, Repr

/-- A row of stripe_orders; the columns handleCheckoutCompleted writes. -/
structure OrderRow where
  customer_id : Nat
  checkout_session_id : String
  payment_intent_id : Option String
  amount : Nat
  currency : String
  status : OrderStatus
  purchased_at : Nat
deriving DecidableEq, Repr

/-- The local relational store as seen by the webhook handlers. -/
structure Store where
  customers : List CustomerRow
  subscriptions : List SubscriptionRow
  orders : List OrderRow
deriving DecidableEq, Repr

/-- A provider price object, as referenced from a subscription item. -/
structure StripePrice where
  id : String
deriving DecidableEq, Repr

/-- A provider subscription item; price may be absent. -/
structure StripeItem where
  price : Option StripePrice
deriving DecidableEq, Repr

/-- The provider subscription payload fields the handlers read.  The
defaul payment method card info (brand, last4) is present exactly when
the expanded default_payment_method object exists and has a card. -/
structure StripeSubscription where
  id : String
  customer : String
  status : String
  items : List StripeItem
  current_period_start : Option Nat
  current_period_end : Option Nat
  cancel_at_period_end : Bool
  canceled_at : Option Nat
  trial_start : Option Nat
  trial_end : Option Nat
  metadata : Option (List (String × String))
  default_payment_method_card : Option (String × String)
deriving DecidableEq, Repr

/-- subscription.items.data[0]?.price?.id || null: the head item price id
with JS truthiness (the empty string collapses to null). -/
def StripeSubscription.headPriceId (sub : StripeSubscription) : Option String :=
  match sub.items.head? with
  | some it =>
    match it.price with
    | some p => if p.id = "" then none else some p.id
    | none => none
  | none => none

/-- The checkout-session payload fields handleCheckoutCompleted reads; a
non-string customer or payment_intent reference is modelled as none. -/
structure CheckoutSession where
  id : String
  customer : Option String
  mode : String
  payment_status : String
  subscription : Option String
  payment_intent : Option String
  amount_total : Option Nat
  currency : Option String
deriving DecidableEq, Repr

/-- The invoice payload fields the invoice handlers read. -/
structure StripeInvoice where
  id : String
  subscription : Option String
deriving DecidableEq, Repr

/-- A verified provider event: its type tag and payload. -/
inductive StripeEvent where
  | checkoutCompleted (sess : CheckoutSession)
  | subscriptionCreated (sub : StripeSubscription)
  | subscriptionUpdated (sub : StripeSubscription)
  | subscriptionDeleted (sub : StripeSubscription)
  | invoicePaymentSucceeded (inv : StripeInvoice)
  | invoicePaymentFailed (inv : StripeInvoice)
  | otherEvent (ty : String)
deriving DecidableEq, Repr

/-- Outcome of running a handler: the store after the run, the error
messages it logged, and whether an exception escaped it. -/
structure RunResult where
  store : Store
  errors : List String
  thrown : Bool
deriving DecidableEq, Repr

/-- The store upsert with onConflict subscription_id: a conflicting row
has every supplied column overwritten; otherwise the row is inserted. -/
def upsertSubRow (row : SubscriptionRow) (l : List SubscriptionRow) : List SubscriptionRow :=
  if l.any (fun r => r.subscription_id == row.subscription_id) then
    l.map (fun r => if r.subscription_id == row.subscription_id then row else r)
  else l ++ [row]

/-- The subscriptionData object built by upsertSubscription, given the
resolved internal customer id and the enum-admitted status. -/
def subscriptionDataOf (now : Nat) (crid : Nat) (st : SubscriptionStatus)
    (sub : StripeSubscription) : SubscriptionRow :=
  { customer_id := crid
    subscription_id := sub.id
    price_id := sub.headPriceId
    status := st
    current_period_start := epochToIso sub.current_period_start
    current_period_end := epochToIso sub.current_period_end
    cancel_at_period_end := sub.cancel_at_period_end
    canceled_at := epochToIso sub.canceled_at
    trial_start := epochToIso sub.trial_start
    trial_end := epochToIso sub.trial_end
    metadata := sub.metadata.getD []
    updated_at := now }

/-- upsertSubscription: resolve the owning customer mapping by remote
customer id; if absent, log and return.  Otherwise upsert the
subscription row keyed on subscription_id; a status outside the SQL enum
makes the store write fail, which is logged and rethrown. -/
def upsertSubscription (now : Nat) (sub : StripeSubscription) (s : Store) : RunResult :=
  match s.customers.find? (fun c => c.customer_id == sub.customer) with
  | none =>
    { store := s, errors := ["Failed to find customer record for subscription"], thrown := false }
  | some cr =>
    match parseSubscriptionStatus sub.status with
    | none =>
      { store := s
        errors := ["Error upserting subscription", "Failed to upsert subscription"]
        thrown := true }
    | some st =>
      { store := { s with
          subscriptions := upsertSubRow (subscriptionDataOf now cr.id st sub) s.subscriptions }
        errors := []
        thrown := false }

/-- handleSubscriptionCreated: upsertSubscription under a catch that logs
and swallows any exception. -/
def handleSubscriptionCreated (now : Nat) (sub : StripeSubscription) (s : Store) : RunResult :=
  let r := upsertSubscription now sub s
  if r.thrown then
    { r with errors := r.errors ++ ["Error handling subscription created"], thrown := false }
  else r

/-- handleSubscriptionUpdated: same body as handleSubscriptionCreated up
to the log text. -/
def handleSubscriptionUpdated (now : Nat) (sub : StripeSubscription) (s : Store) : RunResult :=
  let r := upsertSubscription now sub s
  if r.thrown then
    { r with errors := r.errors ++ ["Error handling subscription updated"], thrown := false }
  else r

/-- handleSubscriptionDeleted: update rows whose subscription_id matches,
setting status canceled, canceled_at now, updated_at now.  The row is not
deleted; a match of zero rows is not an error. -/
def handleSubscriptionDeleted (now : Nat) (sub : StripeSubscription) (s : Store) : RunResult :=
  { store := { s with
      subscriptions := s.subscriptions.map (fun r =>
        if r.subscription_id == sub.id then
          { r with status := .canceled, canceled_at := some now, updated_at := now }
        else r) }
    errors := []
    thrown := false }

/-- handleInvoicePaymentSucceeded: when the invoice carries a (truthy)
subscription id, update rows matching that id AND status past_due to
active; nothing else changes. -/
def handleInvoicePaymentSucceeded (now : Nat) (inv : StripeInvoice) (s : Store) : RunResult :=
  match inv.subscription with
  | some sid =>
    if sid == "" then { store := s, errors := [], thrown := false }
    else
      { store := { s with
          subscriptions := s.subscriptions.map (fun r =>
            if r.subscription_id == sid && r.status == SubscriptionStatus.past_due then
              { r with status := .active, updated_at := now }
            else r) }
        errors := []
        thrown := false }
  | none => { store := s, errors := [], thrown := false }

/-- handleInvoicePaymentFailed: when the invoice carries a (truthy)
subscription id, update rows matching that id to past_due. -/
def handleInvoicePaymentFailed (now : Nat) (inv : StripeInvoice) (s : Store) : RunResult :=
  match inv.subscription with
  | some sid =>
    if sid == "" then { store := s, errors := [], thrown := false }
    else
      { store := { s with
          subscriptions := s.subscriptions.map (fun r =>
            if r.subscription_id == sid then
              { r with status := .past_due, updated_at := now }
            else r) }
        errors := []
        thrown := false }
  | none => { store := s, errors := [], thrown := false }

/-- The order insert hits the unique constraints on checkout_session_id
and on (non-null) payment_intent_id. -/
def orderInsertConflict (o : OrderRow) (l : List OrderRow) : Bool :=
  l.any (fun r =>
    r.checkout_session_id == o.checkout_session_id ||
    (o.payment_intent_id.isSome && r.payment_intent_id == o.payment_intent_id))

/-- handleCheckoutCompleted, subscription-id-keyed variant: resolve the
customer mapping; in subscription mode defer to the subscription
lifecycle events; in payment mode with payment_status paid insert an
Order row with status paid (a constraint violation is logged and
swallowed); otherwise do nothing. -/
def handleCheckoutCompleted (now : Nat) (sess : CheckoutSession) (s : Store) : RunResult :=
  match sess.customer with
  | none => { store := s, errors := ["Invalid customer in checkout session"], thrown := false }
  | some cust =>
    if cust == "" then
      { store := s, errors := ["Invalid customer in checkout session"], thrown := false }
    else
      match s.customers.find? (fun c => c.customer_id == cust) with
      | none => { store := s, errors := ["Failed to find customer record"], thrown := false }
      | some cr =>
        if sess.mode == "subscription" && !falsyOpt sess.subscription then
          { store := s, errors := [], thrown := false }
        else if sess.mode == "payment" && sess.payment_status == "paid" then
          let o : OrderRow :=
            { customer_id := cr.id
              checkout_session_id := sess.id
              payment_intent_id := sess.payment_intent
              amount := sess.amount_total.getD 0
              currency := match sess.currency with
                | some c => if c = "" then "eur" else c
                | none => "eur"
              status := .paid
              purchased_at := now }
          if orderInsertConflict o s.orders then
            { store := s, errors := ["Error creating order record"], thrown := false }
          else
            { store := { s with orders := s.orders ++ [o] }, errors := [], thrown := false }
        else { store := s, errors := [], thrown := false }

/-- The try block of handleEvent, subscription-id-keyed variant:
dispatch on the event type tag. -/
def handleEventCore (now : Nat) (ev : StripeEvent) (s : Store) : RunResult :=
  match ev with
  | .checkoutCompleted sess => handleCheckoutCompleted now sess s
  | .subscriptionCreated sub => handleSubscriptionCreated now sub s
  | .subscriptionUpdated sub => handleSubscriptionUpdated now sub s
  | .subscriptionDeleted sub => handleSubscriptionDeleted now sub s
  | .invoicePaymentSucceeded inv => handleInvoicePaymentSucceeded now inv s
  | .invoicePaymentFailed inv => handleInvoicePaymentFailed now inv s
  | .otherEvent _ => { store := s, errors := [], thrown := false }

/-- handleEvent: the dispatch above under a catch that logs and swallows
any exception. -/
def handleEvent (now : Nat) (ev : StripeEvent) (s : Store) : RunResult :=
  let r := handleEventCore now ev s
  if r.thrown then { r with errors := r.errors ++ ["Error handling event"], thrown := false }
  else r

/-- The environment-sourced configuration of the webhook and checkout
endpoints; each variable may be unset. -/
structure WebhookConfig where
  stripeSecret : Option String
  stripeWebhookSecret : Option String
  supabaseUrl : Option String
  supabaseServiceKey : Option String
deriving DecidableEq, Repr

/-- An inbound webhook request: method, stripe-signature header, raw
body. -/
structure WebhookRequest where
  method : String
  signature : Option String
  body : String
deriving DecidableEq, Repr

/-- The responses the webhook serve wrapper can produce; received200 is
the 200 response with body containing received true. -/
inductive WebhookResponse where
  | preflight204
  | methodNotAllowed405
  | stripeConfigMissing500
  | dbConfigMissing500
  | noSignature400
  | sigVerificationFailed400 (msg : String)
  | received200
deriving DecidableEq, Repr

/-- The HTTP status code of each webhook response. -/
def WebhookResponse.httpStatus : WebhookResponse → Nat
  | .preflight204 => 204
  | .methodNotAllowed405 => 405
  | .stripeConfigMissing500 => 500
  | .dbConfigMissing500 => 500
  | .noSignature400 => 400
  | .sigVerificationFailed400 _ => 400
  | .received200 => 200

/-- The webhook serve wrapper: preflight, method check, configuration
checks, signature header check, signature verification over the raw body
(the verifier is the external constructEventAsync, passed in as a
function).  On success the response is determined and the verified event
is dispatched as a detached background task (the second component);
reconciliation never runs on any other path. -/
def serveWebhook (verify : String → String → String → Except String StripeEvent)
    (cfg : WebhookConfig) (req : WebhookRequest) : WebhookResponse × Option StripeEvent :=
  if req.method == "OPTIONS" then (.preflight204, none)
  else if req.method != "POST" then (.methodNotAllowed405, none)
  else if falsyOpt cfg.stripeSecret || falsyOpt cfg.stripeWebhookSecret then
    (.stripeConfigMissing500, none)
  else if falsyOpt cfg.supabaseUrl || falsyOpt cfg.supabaseServiceKey then
    (.dbConfigMissing500, none)
  else
    match req.signature with
    | none => (.noSignature400, none)
    | some sig =>
      if sig == "" then (.noSignature400, none)
      else
        match verify req.body sig (cfg.stripeWebhookSecret.getD "") with
        | .error msg => (.sigVerificationFailed400 msg, none)
        | .ok ev => (.received200, some ev)

/-- The authenticated user resolved from the bearer token. -/
structure AuthUser where
  id : String
  email : String
deriving DecidableEq, Repr

/-- The JSON body of a checkout request; absent fields are none. -/
structure CheckoutBody where
  price_id : Option String
  success_url : Option String
  cancel_url : Option String
  mode : Option String
deriving DecidableEq, Repr

/-- An inbound checkout request. -/
structure CheckoutRequest where
  method : String
  authHeader : Option String
  body : CheckoutBody
deriving DecidableEq, Repr

/-- The outcomes of the external effects the checkout endpoint performs,
passed in explicitly: identity resolution, the customer lookup, remote
customer creation, the mapping insert, the subscription-record lookup and
insert, remote customer deletion, and checkout-session creation. -/
structure CheckoutEnv where
  authResult : Except String (Option AuthUser)
  getCustomerError : Bool
  remoteCreate : Except String String
  insertMappingError : Bool
  getSubError : Bool
  insertSubError : Bool
  remoteDeleteError : Bool
  createSession : Except String (String × Option String)
deriving Repr

/-- The state the checkout endpoint touches: the local customer mappings,
the checkout-variant subscription rows (customer_id, status), the
provider-side customer set, the remote delete calls attempted, and the
errors logged. -/
structure CheckoutState where
  customers : List CustomerRow
  subs : List (String × String)
  remoteCustomers : List String
  deleteAttempts : List String
  errors : List String
deriving DecidableEq, Repr

/-- A checkout endpoint response. -/
structure CheckoutResponse where
  httpStatus : Nat
  errorMsg : Option String
  sessionId : Option String
  url : Option String
  customer_id : Option String
deriving DecidableEq, Repr

/-- An error response body with the given status code. -/
def errResp (code : Nat) (msg : String) : CheckoutResponse :=
  { httpStatus := code, errorMsg := some msg, sessionId := none, url := none,
    customer_id := none }

/-- The final step of the checkout flow: request a hosted session from
the provider and return its id and redirect url. -/
def checkoutSessionStep (env : CheckoutEnv) (customerId : String) (st : CheckoutState) :
    CheckoutResponse × CheckoutState :=
  match env.createSession with
  | .error _ =>
    (errResp 500 "Failed to create checkout session",
     { st with errors := st.errors ++ ["Failed to create checkout session"] })
  | .ok (sid, u) =>
    ({ httpStatus := 200, errorMsg := none, sessionId := some sid, url := u,
       customer_id := some customerId }, st)

/-- The previously-unmapped path of the checkout endpoint: create a
remote customer, insert the local mapping; if the insert fails, delete
the remote customer best-effort (a failing delete is only logged) and
return 500; in subscription mode also insert a not_started subscription
record, compensating on failure by deleting the remote customer and the
mapping row (again best-effort). -/
def stripeCheckoutCreatePath (env : CheckoutEnv) (mode : String) (u : AuthUser)
    (nextId : Nat) (st : CheckoutState) : CheckoutResponse × CheckoutState :=
  match env.remoteCreate with
  | .error _ =>
    (errResp 500 "Failed to create customer",
     { st with errors := st.errors ++ ["Failed to create Stripe customer"] })
  | .ok cid =>
    let st1 := { st with remoteCustomers := st.remoteCustomers ++ [cid] }
    if env.insertMappingError then
      let st2 := { st1 with
        errors := st1.errors ++ ["Failed to save customer information"]
        deleteAttempts := st1.deleteAttempts ++ [cid] }
      let st3 :=
        if env.remoteDeleteError then
          { st2 with errors := st2.errors ++ ["Failed to clean up Stripe customer"] }
        else
          { st2 with remoteCustomers := st2.remoteCustomers.filter (fun x => x != cid) }
      (errResp 500 "Failed to create customer mapping", st3)
    else
      let st2 := { st1 with customers := st1.customers ++
        [{ id := nextId, user_id := u.id, customer_id := cid, deleted_at := none }] }
      if mode == "subscription" then
        if env.insertSubError then
          let st3 := { st2 with
            errors := st2.errors ++ ["Failed to create subscription record"]
            deleteAttempts := st2.deleteAttempts ++ [cid] }
          let st4 :=
            if env.remoteDeleteError then
              { st3 with
                errors := st3.errors ++ ["Failed to clean up after subscription creation error"] }
            else
              { st3 with
                remoteCustomers := st3.remoteCustomers.filter (fun x => x != cid)
                customers := st3.customers.filter (fun c => c.customer_id != cid) }
          (errResp 500 "Failed to create subscription record", st4)
        else
          checkoutSessionStep env cid { st2 with subs := st2.subs ++ [(cid, "not_started")] }
      else checkoutSessionStep env cid st2

/-- The checkout endpoint serve handler: preflight and method checks,
configuration checks, body validation, mode validation, identity
resolution, customer-mapping lookup, the unmapped-user creation path or
the existing-customer path, and session creation. -/
def stripeCheckout (cfg : WebhookConfig) (env : CheckoutEnv) (req : CheckoutRequest)
    (nextId : Nat) (st : CheckoutState) : CheckoutResponse × CheckoutState :=
  if req.method == "OPTIONS" then
    ({ httpStatus := 204, errorMsg := none, sessionId := none, url := none,
       customer_id := none }, st)
  else if req.method != "POST" then (errResp 405 "Method not allowed", st)
  else if falsyOpt cfg.stripeSecret then (errResp 500 "Stripe configuration missing", st)
  else if falsyOpt cfg.supabaseUrl || falsyOpt cfg.supabaseServiceKey then
    (errResp 500 "Database configuration missing", st)
  else if falsyOpt req.body.price_id || falsyOpt req.body.success_url ||
      falsyOpt req.body.cancel_url || falsyOpt req.body.mode then
    (errResp 400 "Missing required parameters", st)
  else
    let mode := req.body.mode.getD ""
    if mode != "subscription" && mode != "payment" then (errResp 400 "Invalid mode", st)
    else if falsyOpt req.authHeader then (errResp 401 "Authorization header missing", st)
    else
      match env.authResult with
      | .error _ =>
        (errResp 401 "Failed to authenticate user",
         { st with errors := st.errors ++ ["Failed to authenticate user"] })
      | .ok none => (errResp 404 "User not found", st)
      | .ok (some u) =>
        if env.getCustomerError then
          (errResp 500 "Failed to fetch customer information",
           { st with errors := st.errors ++ ["Failed to fetch customer information"] })
        else
          match st.customers.find? (fun c => c.user_id == u.id && c.deleted_at == none) with
          | some ec =>
            if ec.customer_id == "" then stripeCheckoutCreatePath env mode u nextId st
            else
              let customerId := ec.customer_id
              if mode == "subscription" then
                if env.getSubError then
                  (errResp 500 "Failed to fetch subscription information",
                   { st with errors := st.errors ++ ["Failed to fetch subscription information"] })
                else if st.subs.any (fun p => p.1 == customerId) then
                  checkoutSessionStep env customerId st
                else if env.insertSubError then
                  (errResp 500 "Failed to create subscription record",
                   { st with errors := st.errors ++
                       ["Failed to create subscription record for existing customer"] })
                else
                  checkoutSessionStep env customerId
                    { st with subs := st.subs ++ [(customerId, "not_started")] }
              else checkoutSessionStep env customerId st
          | none => stripeCheckoutCreatePath env mode u nextId st

/-- A row of the customer-id-keyed stripe_subscriptions variant: keyed by
the remote customer id directly; metadata holds the payment method brand
and last4 when present. -/
structure CustSubRow where
  customer_id : String
  subscription_id : Option String
  price_id : Option String
  status : SubscriptionStatus
  current_period_start : Option Nat
  current_period_end : Option Nat
  cancel_at_period_end : Bool
  canceled_at : Option Nat
  trial_start : Option Nat
  trial_end : Option Nat
  metadata : Option (String × String)
  updated_at : Nat
deriving DecidableEq, Repr

/-- Outcome of running syncCustomerFromStripe. -/
structure SyncResult where
  table : List CustSubRow
  errors : List String
  thrown : Bool
deriving DecidableEq, Repr

/-- The row the zero-subscriptions branch of syncCustomerFromStripe
upserts: only customer_id, status canceled and updated_at are supplied;
the remaining columns take their defaults on a fresh insert. -/
def noSubscriptionRow (now : Nat) (cid : String) : CustSubRow :=
  { customer_id := cid, subscription_id := none, price_id := none,
    status := .canceled, current_period_start := none, current_period_end := none,
    cancel_at_period_end := false, canceled_at := none, trial_start := none,
    trial_end := none, metadata := none, updated_at := now }

/-- The full row the nonempty branch of syncCustomerFromStripe builds
from the most recent provider subscription. -/
def syncedRowOf (now : Nat) (cid : String) (st : SubscriptionStatus)
    (sub : StripeSubscription) : CustSubRow :=
  { customer_id := cid
    subscription_id := some sub.id
    price_id := sub.headPriceId
    status := st
    current_period_start := epochToIso sub.current_period_start
    current_period_end := epochToIso sub.current_period_end
    cancel_at_period_end := sub.cancel_at_period_end
    canceled_at := epochToIso sub.canceled_at
    trial_start := epochToIso sub.trial_start
    trial_end := epochToIso sub.trial_end
    metadata := sub.default_payment_method_card
    updated_at := now }

/-- syncCustomerFromStripe, customer-id-keyed variant: list the
provider subscriptions of the customer (outcome passed in, since it is a
remote call; a failure is logged and rethrown).  With zero subscriptions,
upsert a row keyed on customer_id with status canceled and updated_at
now.  Otherwise upsert the full row for the most recent subscription; on
conflict the metadata column is only overwritten when payment method card
info was supplied, mirroring the conditionally-added metadata key. -/
def syncCustomerFromStripe (now : Nat) (listResult : Except String (List StripeSubscription))
    (cid : String) (t : List CustSubRow) : SyncResult :=
  match listResult with
  | .error _ =>
    { table := t, errors := ["Failed to sync subscription for customer"], thrown := true }
  | .ok subsList =>
    match subsList.head? with
    | none =>
      if t.any (fun r => r.customer_id == cid) then
        { table := t.map (fun r =>
            if r.customer_id == cid then { r with status := .canceled, updated_at := now }
            else r)
          errors := []
          thrown := false }
      else
        { table := t ++ [noSubscriptionRow now cid], errors := [], thrown := false }
    | some sub =>
      match parseSubscriptionStatus sub.status with
      | none =>
        { table := t
          errors := ["Error syncing subscription", "Failed to sync subscription for customer"]
          thrown := true }
      | some stt =>
        if t.any (fun r => r.customer_id == cid) then
          { table := t.map (fun r =>
              if r.customer_id == cid then
                match sub.default_payment_method_card with
                | some _ => syncedRowOf now cid stt sub
                | none => { syncedRowOf now cid stt sub with metadata := r.metadata }
              else r)
            errors := []
            thrown := false }
        else
          { table := t ++ [syncedRowOf now cid stt sub], errors := [], thrown := false }

theorem SubscriptionStatus.mem_all (st : SubscriptionStatus) : st ∈ SubscriptionStatus.all := by
  cases st <;> simp [SubscriptionStatus.all]

theorem map_overwrite_idem {α : Type} (p : α → Bool) (v : α) (hv : p v = true) (l : List α) :
    (l.map (fun r => if p r then v else r)).map (fun r => if p r then v else r) =
      l.map (fun r => if p r then v else r) := by
  induction l with
  | nil => rfl
  | cons x xs ih =>
    by_cases hx : p x = true
    · simp only [List.map_cons, hx, if_true, hv, ih]
    · rw [Bool.not_eq_true] at hx
      simp only [List.map_cons, hx, Bool.false_eq_true, if_false, ih]

theorem map_no_match_eq_self {α : Type} (p : α → Bool) (v : α) (l : List α)
    (h : ∀ a ∈ l, p a = false) :
    l.map (fun r => if p r then v else r) = l := by
  induction l with
  | nil => rfl
  | cons x xs ih =>
    have hx := h x (List.mem_cons_self x xs)
    simp only [List.map_cons, hx, Bool.false_eq_true, if_false]
    rw [ih (fun a ha => h a (List.mem_cons_of_mem x ha))]

theorem upsertSubRow_idem (row : SubscriptionRow) (l : List SubscriptionRow) :
    upsertSubRow row (upsertSubRow row l) = upsertSubRow row l := by
  unfold upsertSubRow
  by_cases h : l.any (fun r => r.subscription_id == row.subscription_id) = true
  · simp only [h, if_true]
    have hmap : (l.map (fun r => if r.subscription_id == row.subscription_id then row else r)).any
        (fun r => r.subscription_id == row.subscription_id) = true := by
      obtain ⟨r, hr, hp⟩ := List.any_eq_true.mp h
      refine List.any_eq_true.mpr ⟨row, List.mem_map.mpr ⟨r, hr, by simp [hp]⟩, by simp⟩
    simp only [hmap, if_true]
    exact map_overwrite_idem (fun r => r.subscription_id == row.subscription_id) row
      (by simp) l
  · rw [Bool.not_eq_true] at h
    simp only [h, Bool.false_eq_true, if_false]
    have happ : (l ++ [row]).any (fun r => r.subscription_id == row.subscription_id) = true := by
      refine List.any_eq_true.mpr ⟨row, by simp, by simp⟩
    simp only [happ, if_true, List.map_append, List.map_cons, List.map_nil]
    have hall : ∀ a ∈ l, (a.subscription_id == row.subscription_id) = false := by
      intro a ha
      rcases List.any_eq_false.mp h a ha with hfalse
      simpa using hfalse
    rw [map_no_match_eq_self _ row l hall]
    simp

theorem self_mem_upsertSubRow (row : SubscriptionRow) (l : List SubscriptionRow) :
    row ∈ upsertSubRow row l := by
  unfold upsertSubRow
  by_cases h : l.any (fun r => r.subscription_id == row.subscription_id) = true
  · simp only [h, if_true]
    obtain ⟨r, hr, hp⟩ := List.any_eq_true.mp h
    exact List.mem_map.mpr ⟨r, hr, by simp [hp]⟩
  · rw [Bool.not_eq_true] at h
    simp [h]

theorem upsertSubscription_customers (now : Nat) (sub : StripeSubscription) (s : Store) :
    (upsertSubscription now sub s).store.customers = s.customers := by
  unfold upsertSubscription
  cases hf : s.customers.find? (fun c => c.customer_id == sub.customer) with
  | none => rfl
  | some cr =>
    cases hp : parseSubscriptionStatus sub.status with
    | none => rfl
    | some st => rfl

theorem upsertSubscription_idem (now : Nat) (sub : StripeSubscription) (s : Store) :
    (upsertSubscription now sub (upsertSubscription now sub s).store).store =
      (upsertSubscription now sub s).store := by
  unfold upsertSubscription
  cases hf : s.customers.find? (fun c => c.customer_id == sub.customer) with
  | none => simp [hf]
  | some cr =>
    cases hp : parseSubscriptionStatus sub.status with
    | none => simp [hf, hp]
    | some st =>
      simp only [hf, hp]
      simp [hf, hp, upsertSubRow_idem]

theorem map_ite_no_match {α : Type} (p : α → Bool) (g : α → α) (l : List α)
    (h : ∀ a ∈ l, p a = false) :
    l.map (fun r => if p r then g r else r) = l := by
  induction l with
  | nil => rfl
  | cons x xs ih =>
    have hx := h x (List.mem_cons_self x xs)
    simp only [List.map_cons, hx, Bool.false_eq_true, if_false]
    rw [ih (fun a ha => h a (List.mem_cons_of_mem x ha))]

theorem handleEvent_store (now : Nat) (ev : StripeEvent) (s : Store) :
    (handleEvent now ev s).store = (handleEventCore now ev s).store := by
  unfold handleEvent
  by_cases h : (handleEventCore now ev s).thrown = true <;> simp [h]

theorem handleEvent_errors_sub (now : Nat) (ev : StripeEvent) (s : Store) :
    (handleEventCore now ev s).errors ≠ [] → (handleEvent now ev s).errors ≠ [] := by
  intro h
  unfold handleEvent
  by_cases ht : (handleEventCore now ev s).thrown = true <;> simp [ht, h]

theorem handleEvent_thrown (now : Nat) (ev : StripeEvent) (s : Store) :
    (handleEvent now ev s).thrown = false := by
  unfold handleEvent
  by_cases h : (handleEventCore now ev s).thrown = true <;> simp [h]

theorem handleSubscriptionCreated_store (now : Nat) (sub : StripeSubscription) (s : Store) :
    (handleSubscriptionCreated now sub s).store = (upsertSubscription now sub s).store := by
  unfold handleSubscriptionCreated
  by_cases h : (upsertSubscription now sub s).thrown = true <;> simp [h]

theorem handleSubscriptionUpdated_store (now : Nat) (sub : StripeSubscription) (s : Store) :
    (handleSubscriptionUpdated now sub s).store = (upsertSubscription now sub s).store := by
  unfold handleSubscriptionUpdated
  by_cases h : (upsertSubscription now sub s).thrown = true <;> simp [h]

/-- A concrete provider subscription payload used by the witnesses. -/
def sub0 : StripeSubscription :=
  { id := "sub_1", customer := "cus_1", status := "trialing",
    items := [{ price := some { id := "price_1" } }],
    current_period_start := some 100, current_period_end := some 200,
    cancel_at_period_end := false, canceled_at := none,
    trial_start := some 100, trial_end := some 200,
    metadata := some [], default_payment_method_card := none }

/-- A concrete customer mapping row used by the witnesses. -/
def cust0 : CustomerRow :=
  { id := 1, user_id := "user_1", customer_id := "cus_1", deleted_at := none }

/-- A concrete store holding the mapping for sub0 and nothing else. -/
def store0 : Store := { customers := [cust0], subscriptions := [], orders := [] }

/-- C1: for every subscription event carrying a provider status string,
the status stored in the local subscription row is a member of the local
status enum, and a provider status string outside the enum makes the
mapping step fail loudly: an error is reported and nothing is stored or
defaulted. -/
theorem claim_C1_status_enum_mapping (now : Nat) (sub : StripeSubscription) (s : Store) :
    (∀ row ∈ (upsertSubscription now sub s).store.subscriptions,
        row.status ∈ SubscriptionStatus.all)
    ∧ (parseSubscriptionStatus sub.status = none →
        (upsertSubscription now sub s).store = s ∧
        (upsertSubscription now sub s).errors ≠ [])
    ∧ (∀ st cr, parseSubscriptionStatus sub.status = some st →
        s.customers.find? (fun c => c.customer_id == sub.customer) = some cr →
        ∃ row, row ∈ (upsertSubscription now sub s).store.subscriptions ∧
          row.subscription_id = sub.id ∧ row.status = st) := by
  refine ⟨fun row _ => SubscriptionStatus.mem_all row.status, ?_, ?_⟩
  · intro hp
    unfold upsertSubscription
    cases hf : s.customers.find? (fun c => c.customer_id == sub.customer) with
    | none => simp
    | some cr => simp [hp]
  · intro st cr hp hf
    unfold upsertSubscription
    rw [hf, hp]
    exact ⟨subscriptionDataOf now cr.id st sub,
      self_mem_upsertSubRow (subscriptionDataOf now cr.id st sub) s.subscriptions, rfl, rfl⟩

/-- Witness for C1 at a concrete trialing subscription event. -/
theorem claim_C1_status_enum_mapping_witness :
    ∃ row, row ∈ (upsertSubscription 5 sub0 store0).store.subscriptions ∧
      row.subscription_id = sub0.id ∧ row.status = SubscriptionStatus.trialing :=
  (claim_C1_status_enum_mapping 5 sub0 store0).2.2 SubscriptionStatus.trialing cust0
    (by decide) (by decide)

/-- C2: duplicate delivery of the same subscription-lifecycle event is
idempotent: applying the handler twice to the same event and starting
store yields the same stored rows as applying it once. -/
theorem claim_C2_duplicate_delivery_idempotent (now : Nat) (sub : StripeSubscription)
    (ev : StripeEvent) (s : Store)
    (h : ev = StripeEvent.subscriptionCreated sub ∨ ev = StripeEvent.subscriptionUpdated sub) :
    (handleEvent now ev (handleEvent now ev s).store).store = (handleEvent now ev s).store := by
  rcases h with h | h <;> subst h <;>
    simp only [handleEvent_store, handleEventCore] <;>
    [rw [handleSubscriptionCreated_store, handleSubscriptionCreated_store];
     rw [handleSubscriptionUpdated_store, handleSubscriptionUpdated_store]] <;>
    exact upsertSubscription_idem now sub s

/-- Witness for C2 at a concrete subscription-created event. -/
theorem claim_C2_witness :
    (handleEvent 5 (StripeEvent.subscriptionCreated sub0)
        (handleEvent 5 (StripeEvent.subscriptionCreated sub0) store0).store).store =
      (handleEvent 5 (StripeEvent.subscriptionCreated sub0) store0).store :=
  claim_C2_duplicate_delivery_idempotent 5 sub0 (StripeEvent.subscriptionCreated sub0) store0
    (Or.inl rfl)

/-- C3: an invoice-payment-succeeded event transitions the subscription
matched by remote subscription id to active exactly when its stored
status is past_due; every other row is left unchanged, and no exception
escapes. -/
theorem claim_C3_invoice_success_past_due_only (now : Nat) (inv : StripeInvoice)
    (sid : String) (s : Store) (hs : inv.subscription = some sid) (hne : sid ≠ "") :
    (handleEvent now (StripeEvent.invoicePaymentSucceeded inv) s).store.customers = s.customers ∧
    (handleEvent now (StripeEvent.invoicePaymentSucceeded inv) s).store.orders = s.orders ∧
    (handleEvent now (StripeEvent.invoicePaymentSucceeded inv) s).store.subscriptions =
      s.subscriptions.map (fun r =>
        if r.subscription_id = sid ∧ r.status = SubscriptionStatus.past_due then
          { r with status := SubscriptionStatus.active, updated_at := now }
        else r) ∧
    (handleEvent now (StripeEvent.invoicePaymentSucceeded inv) s).thrown = false := by
  have hb : (sid == "") = false := by simp [hne]
  refine ⟨?_, ?_, ?_, handleEvent_thrown _ _ _⟩ <;>
    simp only [handleEvent_store, handleEventCore, handleInvoicePaymentSucceeded, hs, hb,
      Bool.false_eq_true, if_false]
  apply List.map_congr_left
  intro r _
  by_cases h1 : r.subscription_id = sid
  · by_cases h2 : r.status = SubscriptionStatus.past_due
    · simp [h1, h2]
    · simp [h1, h2]
  · simp [h1]

/-- A concrete past_due subscription row used by the C3 witness. -/
def rowPastDue : SubscriptionRow :=
  { customer_id := 1, subscription_id := "sub_1", price_id := some "price_1",
    status := .past_due, current_period_start := none, current_period_end := none,
    cancel_at_period_end := false, canceled_at := none, trial_start := none,
    trial_end := none, metadata := [], updated_at := 0 }

/-- A concrete store holding one past_due subscription row. -/
def storePastDue : Store :=
  { customers := [cust0], subscriptions := [rowPastDue], orders := [] }

/-- A concrete invoice payload naming the subscription of rowPastDue. -/
def inv0 : StripeInvoice := { id := "in_1", subscription := some "sub_1" }

/-- Witness for C3 at a concrete invoice event over a past_due row. -/
theorem claim_C3_witness :
    (handleEvent 5 (StripeEvent.invoicePaymentSucceeded inv0) storePastDue).store.customers =
      storePastDue.customers ∧
    (handleEvent 5 (StripeEvent.invoicePaymentSucceeded inv0) storePastDue).store.orders =
      storePastDue.orders ∧
    (handleEvent 5 (StripeEvent.invoicePaymentSucceeded inv0) storePastDue).store.subscriptions =
      storePastDue.subscriptions.map (fun r =>
        if r.subscription_id = "sub_1" ∧ r.status = SubscriptionStatus.past_due then
          { r with status := SubscriptionStatus.active, updated_at := 5 }
        else r) ∧
    (handleEvent 5 (StripeEvent.invoicePaymentSucceeded inv0) storePastDue).thrown = false :=
  claim_C3_invoice_success_past_due_only 5 inv0 "sub_1" storePastDue (by decide) (by decide)

/-- C4: a subscription-created or subscription-updated event whose remote
customer id has no local mapping is dropped: the store is unchanged, an
error is logged, and no exception escapes the handler. -/
theorem claim_C4_missing_customer_drops_event (now : Nat) (sub : StripeSubscription)
    (ev : StripeEvent) (s : Store)
    (hev : ev = StripeEvent.subscriptionCreated sub ∨ ev = StripeEvent.subscriptionUpdated sub)
    (hfind : s.customers.find? (fun c => c.customer_id == sub.customer) = none) :
    (handleEvent now ev s).store = s ∧
    (handleEvent now ev s).errors ≠ [] ∧
    (handleEvent now ev s).thrown = false := by
  have hup : upsertSubscription now sub s =
      { store := s, errors := ["Failed to find customer record for subscription"],
        thrown := false } := by
    unfold upsertSubscription
    rw [hfind]
  rcases hev with h | h <;> subst h <;>
    refine ⟨?_, ?_, handleEvent_thrown _ _ _⟩ <;>
    simp [handleEvent_store, handleEventCore, handleSubscriptionCreated,
      handleSubscriptionUpdated, hup, handleEvent, handleEventCore]

/-- A concrete subscription payload whose customer has no local
mapping row anywhere. -/
def subUnmapped : StripeSubscription :=
  { id := "sub_9", customer := "cus_missing", status := "active",
    items := [], current_period_start := none, current_period_end := none,
    cancel_at_period_end := false, canceled_at := none,
    trial_start := none, trial_end := none,
    metadata := none, default_payment_method_card := none }

/-- Witness for C4 at a concrete unmapped subscription-created event. -/
theorem claim_C4_witness :
    (handleEvent 5 (StripeEvent.subscriptionCreated subUnmapped) store0).store = store0 ∧
    (handleEvent 5 (StripeEvent.subscriptionCreated subUnmapped) store0).errors ≠ [] ∧
    (handleEvent 5 (StripeEvent.subscriptionCreated subUnmapped) store0).thrown = false :=
  claim_C4_missing_customer_drops_event 5 subUnmapped
    (StripeEvent.subscriptionCreated subUnmapped) store0 (Or.inl rfl) (by decide)

/-- C5: a subscription-deleted event marks every row matching the remote
subscription id canceled with canceled-at set to now, deletes nothing,
changes nothing else, lets no exception escape, and when no row matches
it leaves the store unchanged and creates no row. -/
theorem claim_C5_subscription_deleted_transition (now : Nat) (sub : StripeSubscription)
    (s : Store) :
    (handleEvent now (StripeEvent.subscriptionDeleted sub) s).store.customers = s.customers ∧
    (handleEvent now (StripeEvent.subscriptionDeleted sub) s).store.orders = s.orders ∧
    (handleEvent now (StripeEvent.subscriptionDeleted sub) s).store.subscriptions =
      s.subscriptions.map (fun r =>
        if r.subscription_id = sub.id then
          { r with status := SubscriptionStatus.canceled, canceled_at := some now,
                   updated_at := now }
        else r) ∧
    (handleEvent now (StripeEvent.subscriptionDeleted sub) s).thrown = false ∧
    ((∀ r ∈ s.subscriptions, r.subscription_id ≠ sub.id) →
      (handleEvent now (StripeEvent.subscriptionDeleted sub) s).store = s) := by
  have hmap : (handleEvent now (StripeEvent.subscriptionDeleted sub) s).store.subscriptions =
      s.subscriptions.map (fun r =>
        if r.subscription_id = sub.id then
          { r with status := SubscriptionStatus.canceled, canceled_at := some now,
                   updated_at := now }
        else r) := by
    simp only [handleEvent_store, handleEventCore, handleSubscriptionDeleted]
    apply List.map_congr_left
    intro r _
    by_cases h1 : r.subscription_id = sub.id
    · simp [h1]
    · simp [h1]
  refine ⟨?_, ?_, hmap, handleEvent_thrown _ _ _, ?_⟩
  · simp only [handleEvent_store, handleEventCore, handleSubscriptionDeleted]
  · simp only [handleEvent_store, handleEventCore, handleSubscriptionDeleted]
  · intro hnone
    simp only [handleEvent_store, handleEventCore, handleSubscriptionDeleted]
    have : s.subscriptions.map (fun r =>
        if r.subscription_id == sub.id then
          { r with status := SubscriptionStatus.canceled, canceled_at := some now,
                   updated_at := now }
        else r) = s.subscriptions := by
      apply map_ite_no_match
      intro r hr
      simp [hnone r hr]
    rw [this]

/-- Witness for C5 over a store with no matching subscription row. -/
theorem claim_C5_witness :
    (handleEvent 5 (StripeEvent.subscriptionDeleted subUnmapped) store0).store = store0 :=
  (claim_C5_subscription_deleted_transition 5 subUnmapped store0).2.2.2.2 (by decide)

/-- C6: a checkout-session-completed event in payment mode whose
payment_status is not paid leaves the orders table unchanged, and an
Order row (always with status paid) is inserted only when mode is
payment and payment_status is paid. -/
theorem claim_C6_unpaid_checkout_no_order (now : Nat) (sess : CheckoutSession) (s : Store) :
    (sess.mode = "payment" → sess.payment_status ≠ "paid" →
      (handleEvent now (StripeEvent.checkoutCompleted sess) s).store.orders = s.orders) ∧
    (∀ o, o ∈ (handleEvent now (StripeEvent.checkoutCompleted sess) s).store.orders →
      o ∉ s.orders →
      sess.mode = "payment" ∧ sess.payment_status = "paid" ∧
        o.status = OrderStatus.paid) := by
  constructor
  · intro hm hp
    simp only [handleEvent_store, handleEventCore]
    unfold handleCheckoutCompleted
    cases hc : sess.customer with
    | none => rfl
    | some cust =>
      by_cases hce : (cust == "") = true
      · simp [hce]
      · rw [Bool.not_eq_true] at hce
        simp only [hce, Bool.false_eq_true, if_false]
        cases hf : s.customers.find? (fun c => c.customer_id == cust) with
        | none => rfl
        | some cr =>
          have hb1 : (sess.mode == "subscription") = false := by simp [hm]
          have hb2 : (sess.payment_status == "paid") = false := by simp [hp]
          simp [hb1, hb2]
  · intro o ho hno
    simp only [handleEvent_store, handleEventCore] at ho
    unfold handleCheckoutCompleted at ho
    cases hc : sess.customer with
    | none => rw [hc] at ho; exact absurd ho hno
    | some cust =>
      rw [hc] at ho
      by_cases hce : (cust == "") = true
      · simp only [hce, if_true] at ho
        exact absurd ho hno
      · rw [Bool.not_eq_true] at hce
        simp only [hce, Bool.false_eq_true, if_false] at ho
        cases hf : s.customers.find? (fun c => c.customer_id == cust) with
        | none => rw [hf] at ho; exact absurd ho hno
        | some cr =>
          rw [hf] at ho
          by_cases hsub : (sess.mode == "subscription" && !falsyOpt sess.subscription) = true
          · simp only [hsub, if_true] at ho
            exact absurd ho hno
          · rw [Bool.not_eq_true] at hsub
            simp only [hsub, Bool.false_eq_true, if_false] at ho
            by_cases hpay : (sess.mode == "payment" && sess.payment_status == "paid") = true
            · have hpay2 := hpay
              simp only [Bool.and_eq_true, beq_iff_eq] at hpay2
              obtain ⟨hm, hp⟩ := hpay2
              refine ⟨hm, hp, ?_⟩
              simp only [hpay, if_true] at ho
              by_cases hconf : orderInsertConflict
                  { customer_id := cr.id
                    checkout_session_id := sess.id
                    payment_intent_id := sess.payment_intent
                    amount := sess.amount_total.getD 0
                    currency := match sess.currency with
                      | some c => if c = "" then "eur" else c
                      | none => "eur"
                    status := .paid
                    purchased_at := now } s.orders = true
              · simp only [hconf, if_true] at ho
                exact absurd ho hno
              · rw [Bool.not_eq_true] at hconf
                simp only [hconf, Bool.false_eq_true, if_false, List.mem_append,
                  List.mem_singleton] at ho
                rcases ho with ho | ho
                · exact absurd ho hno
                · rw [ho]
            · rw [Bool.not_eq_true] at hpay
              simp only [hpay, Bool.false_eq_true, if_false] at ho
              exact absurd ho hno

/-- A concrete payment-mode checkout session with an unpaid
payment_status. -/
def sessUnpaid : CheckoutSession :=
  { id := "cs_1", customer := some "cus_1", mode := "payment",
    payment_status := "unpaid", subscription := none,
    payment_intent := some "pi_1", amount_total := some 5999,
    currency := some "eur" }

/-- Witness for C6 at a concrete unpaid payment-mode session. -/
theorem claim_C6_witness :
    (handleEvent 5 (StripeEvent.checkoutCompleted sessUnpaid) store0).store.orders =
      store0.orders :=
  (claim_C6_unpaid_checkout_no_order 5 sessUnpaid store0).1 (by decide) (by decide)

/-- C7: whenever the webhook endpoint dispatches a verified event for
reconciliation, its response is the 200 received-true response, already
determined independently of the reconciliation outcome; and the
reconciliation handler swallows every error, so no exception can reach
the response. -/
theorem claim_C7_ack_independent_of_reconciliation :
    (∀ (v : String → String → String → Except String StripeEvent)
        (cfg : WebhookConfig) (req : WebhookRequest) (ev : StripeEvent),
        (serveWebhook v cfg req).2 = some ev →
        (serveWebhook v cfg req).1 = WebhookResponse.received200) ∧
    (∀ (now : Nat) (ev : StripeEvent) (s : Store),
        (handleEvent now ev s).thrown = false) := by
  constructor
  · intro v cfg req ev
    unfold serveWebhook
    repeat' split
    all_goals intro h
    all_goals simp_all
  · intro now ev s
    exact handleEvent_thrown now ev s

/-- A verifier that accepts everything, used by the witnesses. -/
def verify0 : String → String → String → Except String StripeEvent :=
  fun _ _ _ => Except.ok (StripeEvent.otherEvent "evt")

/-- A fully-populated endpoint configuration. -/
def cfg0 : WebhookConfig :=
  { stripeSecret := some "sk", stripeWebhookSecret := some "whsec",
    supabaseUrl := some "https://x", supabaseServiceKey := some "key" }

/-- A POST webhook request carrying a signature header. -/
def req0 : WebhookRequest := { method := "POST", signature := some "sig", body := "raw" }

/-- An empty store. -/
def storeEmpty : Store := { customers := [], subscriptions := [], orders := [] }

/-- Witness for C7 at a concrete verified request. -/
theorem claim_C7_witness :
    (serveWebhook verify0 cfg0 req0).1 = WebhookResponse.received200 ∧
    (handleEvent 5 (StripeEvent.otherEvent "evt") storeEmpty).thrown = false :=
  ⟨claim_C7_ack_independent_of_reconciliation.1 verify0 cfg0 req0
      (StripeEvent.otherEvent "evt") (by decide),
   claim_C7_ack_independent_of_reconciliation.2 5 (StripeEvent.otherEvent "evt") storeEmpty⟩

/-- C8: a request whose signature header is absent or whose signature
does not verify under the configured shared secret never gets the 200
received-true response, dispatches no reconciliation, and on the
fully-configured POST path is answered with a 400. -/
theorem claim_C8_signature_failure_never_200
    (v : String → String → String → Except String StripeEvent)
    (cfg : WebhookConfig) (req : WebhookRequest)
    (h : ∀ sig ev, req.signature = some sig →
        v req.body sig (cfg.stripeWebhookSecret.getD "") ≠ Except.ok ev) :
    (serveWebhook v cfg req).1.httpStatus ≠ 200 ∧
    (serveWebhook v cfg req).2 = none ∧
    (req.method = "POST" →
      falsyOpt cfg.stripeSecret = false → falsyOpt cfg.stripeWebhookSecret = false →
      falsyOpt cfg.supabaseUrl = false → falsyOpt cfg.supabaseServiceKey = false →
      (serveWebhook v cfg req).1.httpStatus = 400) := by
  refine ⟨?_, ?_, ?_⟩
  · unfold serveWebhook
    repeat' split
    all_goals simp [WebhookResponse.httpStatus]
    next sig hsig hne res ev heq =>
      exact absurd heq (h sig ev hsig)
  · unfold serveWebhook
    repeat' split
    all_goals simp
    next sig hsig hne res ev heq =>
      exact absurd heq (h sig ev hsig)
  · intro hm h1 h2 h3 h4
    unfold serveWebhook
    have hopt : (req.method == "OPTIONS") = false := by simp [hm]
    have hpost : (req.method != "POST") = false := by simp [hm]
    simp only [hopt, Bool.false_eq_true, if_false, hpost, h1, h2, h3, h4, Bool.or_self,
      Bool.or_false, Bool.false_or]
    cases hsig : req.signature with
    | none => rfl
    | some sig =>
      by_cases hse : (sig == "") = true
      · simp [hse, WebhookResponse.httpStatus]
      · rw [Bool.not_eq_true] at hse
        simp only [hse, Bool.false_eq_true, if_false]
        cases hv : v req.body sig (cfg.stripeWebhookSecret.getD "") with
        | error msg => rfl
        | ok ev => exact absurd hv (h sig ev hsig)

/-- A POST webhook request with no signature header. -/
def reqNoSig : WebhookRequest := { method := "POST", signature := none, body := "raw" }

/-- Witness for C8 at a concrete signatureless request. -/
theorem claim_C8_witness :
    (serveWebhook verify0 cfg0 reqNoSig).1.httpStatus ≠ 200 ∧
    (serveWebhook verify0 cfg0 reqNoSig).2 = none ∧
    (reqNoSig.method = "POST" →
      falsyOpt cfg0.stripeSecret = false → falsyOpt cfg0.stripeWebhookSecret = false →
      falsyOpt cfg0.supabaseUrl = false → falsyOpt cfg0.supabaseServiceKey = false →
      (serveWebhook verify0 cfg0 reqNoSig).1.httpStatus = 400) :=
  claim_C8_signature_failure_never_200 verify0 cfg0 reqNoSig
    (fun sig ev hsig => by simp [reqNoSig] at hsig)

/-- C9: in the checkout flow, when a previously-unmapped user got a
remote customer created and the local mapping insert then fails, the
remote customer is deleted as best-effort compensation (a failing delete
is only logged, the response is unchanged), the endpoint answers with the
500 mapping failure, and no local mapping row is left behind. -/
theorem claim_C9_mapping_insert_compensation
    (cfg : WebhookConfig) (env : CheckoutEnv) (req : CheckoutRequest)
    (nextId : Nat) (st : CheckoutState) (u : AuthUser) (cid : String)
    (hm : req.method = "POST")
    (hc1 : falsyOpt cfg.stripeSecret = false)
    (hc2 : falsyOpt cfg.supabaseUrl = false)
    (hc3 : falsyOpt cfg.supabaseServiceKey = false)
    (hb1 : falsyOpt req.body.price_id = false)
    (hb2 : falsyOpt req.body.success_url = false)
    (hb3 : falsyOpt req.body.cancel_url = false)
    (hmv : req.body.mode = some "subscription" ∨ req.body.mode = some "payment")
    (hah : falsyOpt req.authHeader = false)
    (hauth : env.authResult = Except.ok (some u))
    (hgce : env.getCustomerError = false)
    (hfind : st.customers.find? (fun c => c.user_id == u.id && c.deleted_at == none) = none)
    (hrc : env.remoteCreate = Except.ok cid)
    (hins : env.insertMappingError = true) :
    (stripeCheckout cfg env req nextId st).1 =
      errResp 500 "Failed to create customer mapping" ∧
    cid ∈ (stripeCheckout cfg env req nextId st).2.deleteAttempts ∧
    (env.remoteDeleteError = false →
      cid ∉ (stripeCheckout cfg env req nextId st).2.remoteCustomers) ∧
    (env.remoteDeleteError = true →
      "Failed to clean up Stripe customer" ∈ (stripeCheckout cfg env req nextId st).2.errors) ∧
    (stripeCheckout cfg env req nextId st).2.customers = st.customers := by
  have hb4 : falsyOpt req.body.mode = false := by
    rcases hmv with h | h <;> simp [h, falsyOpt]
  have hmode : (req.body.mode.getD "" != "subscription" &&
      req.body.mode.getD "" != "payment") = false := by
    rcases hmv with h | h <;> simp [h]
  have hopt : (req.method == "OPTIONS") = false := by simp [hm]
  have hpost : (req.method != "POST") = false := by simp [hm]
  have hred : stripeCheckout cfg env req nextId st =
      stripeCheckoutCreatePath env (req.body.mode.getD "") u nextId st := by
    unfold stripeCheckout
    simp only [hopt, Bool.false_eq_true, if_false, hpost, hc1, hc2, hc3, hb1, hb2, hb3, hb4,
      Bool.or_self, Bool.or_false, Bool.false_or, hmode, hah, hauth, hgce, hfind]
  rw [hred]
  unfold stripeCheckoutCreatePath
  simp only [hrc, hins, if_true]
  by_cases hdel : env.remoteDeleteError = true
  · simp only [hdel, if_true]
    refine ⟨trivial, by simp, ?_, ?_, trivial⟩
    · intro h
      exact absurd h (by simp)
    · intro _
      simp
  · rw [Bool.not_eq_true] at hdel
    simp only [hdel, Bool.false_eq_true, if_false]
    refine ⟨trivial, by simp, ?_, ?_, trivial⟩
    · intro _
      simp [List.mem_filter]
    · intro h
      exact absurd h (by simp)

/-- A concrete checkout environment whose mapping insert fails while
remote customer creation succeeds. -/
def env0 : CheckoutEnv :=
  { authResult := Except.ok (some { id := "user_1", email := "mail" }),
    getCustomerError := false, remoteCreate := Except.ok "cus_9",
    insertMappingError := true, getSubError := false, insertSubError := false,
    remoteDeleteError := false, createSession := Except.ok ("cs_1", some "https://pay") }

/-- A concrete well-formed subscription-mode checkout request. -/
def creq0 : CheckoutRequest :=
  { method := "POST", authHeader := some "Bearer tok",
    body := { price_id := some "price_1", success_url := some "https://ok",
              cancel_url := some "https://no", mode := some "subscription" } }

/-- The empty checkout-side state. -/
def cst0 : CheckoutState :=
  { customers := [], subs := [], remoteCustomers := [], deleteAttempts := [], errors := [] }

/-- Witness for C9 at a concrete failing mapping insert. -/
theorem claim_C9_witness :
    (stripeCheckout cfg0 env0 creq0 1 cst0).1 =
      errResp 500 "Failed to create customer mapping" ∧
    "cus_9" ∈ (stripeCheckout cfg0 env0 creq0 1 cst0).2.deleteAttempts ∧
    (env0.remoteDeleteError = false →
      "cus_9" ∉ (stripeCheckout cfg0 env0 creq0 1 cst0).2.remoteCustomers) ∧
    (env0.remoteDeleteError = true →
      "Failed to clean up Stripe customer" ∈ (stripeCheckout cfg0 env0 creq0 1 cst0).2.errors) ∧
    (stripeCheckout cfg0 env0 creq0 1 cst0).2.customers = cst0.customers :=
  claim_C9_mapping_insert_compensation cfg0 env0 creq0 1 cst0
    { id := "user_1", email := "mail" } "cus_9"
    (by decide) (by decide) (by decide) (by decide) (by decide) (by decide) (by decide)
    (Or.inl (by decide)) (by decide) rfl (by decide) (by decide) rfl (by decide)

/-- C10: in the customer-id-keyed variant, a sync for a customer the
provider currently lists zero subscriptions for upserts a row keyed by
remote customer id with status canceled and updated-at now: an existing
row is overwritten on those columns, and when no row existed one is
created; rows of other customers are untouched and nothing is thrown. -/
theorem claim_C10_zero_subscriptions_canceled_upsert
    (now : Nat) (listResult : Except String (List StripeSubscription))
    (cid : String) (t : List CustSubRow)
    (hlist : listResult = Except.ok []) :
    (∃ r, r ∈ (syncCustomerFromStripe now listResult cid t).table ∧
        r.customer_id = cid ∧ r.status = SubscriptionStatus.canceled ∧
        r.updated_at = now) ∧
    (∀ r ∈ t, r.customer_id ≠ cid →
        r ∈ (syncCustomerFromStripe now listResult cid t).table) ∧
    (syncCustomerFromStripe now listResult cid t).thrown = false ∧
    (t = [] →
        (syncCustomerFromStripe now listResult cid t).table = [noSubscriptionRow now cid]) := by
  subst hlist
  unfold syncCustomerFromStripe
  simp only [List.head?_nil]
  by_cases hany : t.any (fun r => r.customer_id == cid) = true
  · simp only [hany, if_true]
    refine ⟨?_, ?_, trivial, ?_⟩
    · obtain ⟨r0, hr0, hp0⟩ := List.any_eq_true.mp hany
      refine ⟨{ r0 with status := .canceled, updated_at := now },
        List.mem_map.mpr ⟨r0, hr0, by simp [hp0]⟩, ?_, rfl, rfl⟩
      exact beq_iff_eq.mp hp0
    · intro r hr hne
      refine List.mem_map.mpr ⟨r, hr, ?_⟩
      simp [hne]
    · intro ht
      subst ht
      simp at hany
  · rw [Bool.not_eq_true] at hany
    simp only [hany, Bool.false_eq_true, if_false]
    refine ⟨⟨noSubscriptionRow now cid, by simp, rfl, rfl, rfl⟩, ?_, trivial, ?_⟩
    · intro r hr _
      exact List.mem_append_left _ hr
    · intro ht
      subst ht
      rfl

/-- Witness for C10 at a concrete customer with zero provider
subscriptions and an empty table. -/
theorem claim_C10_witness :
    (∃ r, r ∈ (syncCustomerFromStripe 5 (Except.ok []) "cus_1" []).table ∧
        r.customer_id = "cus_1" ∧ r.status = SubscriptionStatus.canceled ∧
        r.updated_at = 5) ∧
    (∀ r ∈ ([] : List CustSubRow), r.customer_id ≠ "cus_1" →
        r ∈ (syncCustomerFromStripe 5 (Except.ok []) "cus_1" []).table) ∧
    (syncCustomerFromStripe 5 (Except.ok []) "cus_1" []).thrown = false ∧
    (([] : List CustSubRow) = [] →
        (syncCustomerFromStripe 5 (Except.ok []) "cus_1" []).table =
          [noSubscriptionRow 5 "cus_1"]) :=
  claim_C10_zero_subscriptions_canceled_upsert 5 (Except.ok []) "cus_1" [] rfl
